import Mathlib

/-! Responsive storefront controller (`js.js`)

A shallow embedding of the two browser-side classes of `js.js`:

* `ResponsiveEcommerce` : viewport classification, sidebar open/close state,
  touch-swipe recognition, keyboard shortcuts, search suggestions, debounce;
* `CategoryScroll` : the horizontal tile strip with its two scroll buttons.

The DOM is modelled by the pieces of it that the script reads or writes: the
class list of an element is a list of tokens, an inline style property is a
string, an element that `querySelector` may fail to find is an `Option`.
Numbers read from the browser (viewport width, touch coordinates, scroll
offsets) are integers. Timers are modelled twice: inside the controller as the
list of callbacks handed to `setTimeout`, and, for `debounce`, by an explicit
clock with a queue of pending one-shot timers.
-/

set_option autoImplicit false

namespace Storefront

/-! ## Class lists -/

/-- `classList.add(t)`: appends the token unless it is already there. -/
def classAdd (cl : List String) (t : String) : List String :=
  if t ∈ cl then cl else cl ++ [t]

/-- `classList.remove(t)`: drops every occurrence of the token. -/
def classRemove (cl : List String) (t : String) : List String :=
  cl.filter (fun c => c != t)

/-- `classList.toggle(t)`. -/
def classToggle (cl : List String) (t : String) : List String :=
  if t ∈ cl then classRemove cl t else cl ++ [t]

/-! ## State of `ResponsiveEcommerce` -/

/-- The closure variables of `bindTouchEvents`; `none` is `undefined`. -/
structure Gesture where
  startX : Option Int
  startY : Option Int
  currentX : Option Int
  currentY : Option Int
  isSwipeGesture : Bool
deriving DecidableEq, Repr

/-- The values of the closure variables right after `bindTouchEvents` ran. -/
def Gesture.initial : Gesture :=
  { startX := none, startY := none, currentX := none, currentY := none,
    isSwipeGesture := false }

/-- Callbacks the controller hands to `setTimeout`. -/
inductive Callback where
  | focusFirstLink
  | closeSidebar
  | handleResize
deriving DecidableEq, Repr

/-- Inline style of `.content-area` as written by `adjustContent`. -/
structure ContentStyle where
  marginTop : String
  marginLeft : String
  width : String
deriving DecidableEq, Repr

/-- The `.search-suggestions` element. -/
structure Suggestions where
  className : String
  innerHTML : String
  display : String
deriving DecidableEq, Repr

/-- What the browser reports when a handler runs: `window.innerWidth`,
`window.innerHeight` and `navbar.offsetHeight`. -/
structure Viewport where
  innerWidth : Int
  innerHeight : Int
  navbarHeight : Int
deriving DecidableEq, Repr

/-- Fields of a `ResponsiveEcommerce` instance together with the DOM state it
owns. `isDesktop` is `undefined` until the first `handleResize`; it is only
ever written, and `undefined` is modelled as `false`. -/
structure ResponsiveEcommerce where
  isMobile : Bool
  isTablet : Bool
  isDesktop : Bool
  sidebarOpen : Bool
  hasTouch : Bool
  bodyClass : List String
  sidebarClass : List String
  overlayClass : List String
  hamburgerClass : List String
  navbarClass : List String
  searchContainerClass : List String
  hamburgerDisplay : String
  searchToggleDisplay : String
  navLinksDisplay : String
  searchInputWidth : String
  sidebarTop : String
  sidebarHeight : String
  contentArea : Option ContentStyle
  mobileNavMenu : List String
  sidebarHasLink : Bool
  activeLinks : List Nat
  searchFocusRequests : Nat
  suggestions : Option Suggestions
  gesture : Gesture
  timers : List (Nat × Callback)
deriving DecidableEq, Repr

/-- The page before the script runs: what the HTML gives the anchors. -/
structure Page where
  bodyClass : List String
  sidebarClass : List String
  navbarClass : List String
  searchContainerClass : List String
  contentArea : Option ContentStyle
  sidebarHasLink : Bool
  activeLinks : List Nat
  suggestions : Option Suggestions
  hasTouch : Bool
deriving DecidableEq, Repr

namespace ResponsiveEcommerce

/-- `init()` with `createMobileElements()`: anchors are looked up, the
hamburger, the search toggle, the overlay and the mobile menu are created with
their single class, and the flags are set from `window.innerWidth`. -/
def init (p : Page) (v : Viewport) : ResponsiveEcommerce :=
  { isMobile := decide (v.innerWidth ≤ 768)
    isTablet := decide (v.innerWidth > 768) && decide (v.innerWidth ≤ 1024)
    isDesktop := false
    sidebarOpen := false
    hasTouch := p.hasTouch
    bodyClass := p.bodyClass
    sidebarClass := p.sidebarClass
    overlayClass := ["sidebar-overlay"]
    hamburgerClass := ["hamburger-menu"]
    navbarClass := p.navbarClass
    searchContainerClass := p.searchContainerClass
    hamburgerDisplay := ""
    searchToggleDisplay := ""
    navLinksDisplay := ""
    searchInputWidth := ""
    sidebarTop := ""
    sidebarHeight := ""
    contentArea := p.contentArea
    mobileNavMenu := []
    sidebarHasLink := p.sidebarHasLink
    activeLinks := p.activeLinks
    searchFocusRequests := 0
    suggestions := p.suggestions
    gesture := Gesture.initial
    timers := [] }

/-- `closeSidebar()`. -/
def closeSidebar (s : ResponsiveEcommerce) : ResponsiveEcommerce :=
  { s with
    sidebarClass := classRemove s.sidebarClass "mobile-open"
    overlayClass := classRemove s.overlayClass "active"
    hamburgerClass := classRemove s.hamburgerClass "active"
    bodyClass := classRemove s.bodyClass "sidebar-open"
    sidebarOpen := false }

/-- `openSidebar()`; the focus of the first sidebar link is requested through
a 300 ms timer when the sidebar has a link. -/
def openSidebar (s : ResponsiveEcommerce) : ResponsiveEcommerce :=
  { s with
    sidebarClass := classAdd s.sidebarClass "mobile-open"
    overlayClass := classAdd s.overlayClass "active"
    hamburgerClass := classAdd s.hamburgerClass "active"
    bodyClass := classAdd s.bodyClass "sidebar-open"
    sidebarOpen := true
    timers := if s.sidebarHasLink then s.timers ++ [(300, Callback.focusFirstLink)]
              else s.timers }

/-- `toggleSidebar()`. -/
def toggleSidebar (s : ResponsiveEcommerce) : ResponsiveEcommerce :=
  let s1 := { s with sidebarOpen := !s.sidebarOpen }
  if s1.sidebarOpen then openSidebar s1 else closeSidebar s1

/-- `setupMobile()`. -/
def setupMobile (s : ResponsiveEcommerce) : ResponsiveEcommerce :=
  let s1 := { s with
    hamburgerDisplay := "flex"
    searchToggleDisplay := "block"
    mobileNavMenu := ["mobile-nav-links"]
    navLinksDisplay := "none" }
  if s1.sidebarOpen then closeSidebar s1 else s1

/-- `setupTablet()`. -/
def setupTablet (s : ResponsiveEcommerce) : ResponsiveEcommerce :=
  { s with
    hamburgerDisplay := "flex"
    searchToggleDisplay := "none"
    navLinksDisplay := "flex"
    searchInputWidth := "250px" }

/-- `setupDesktop()`. -/
def setupDesktop (s : ResponsiveEcommerce) : ResponsiveEcommerce :=
  { s with
    hamburgerDisplay := "none"
    searchToggleDisplay := "none"
    navLinksDisplay := "flex"
    searchInputWidth := "300px"
    sidebarClass := classRemove s.sidebarClass "mobile-hidden"
    overlayClass := classRemove s.overlayClass "active"
    sidebarOpen := false }

/-- `adjustSidebar()`. -/
def adjustSidebar (s : ResponsiveEcommerce) (v : Viewport) : ResponsiveEcommerce :=
  if s.isMobile || s.isTablet then
    { s with
      sidebarTop := toString v.navbarHeight ++ "px"
      sidebarHeight := "calc(100vh - " ++ toString v.navbarHeight ++ "px)" }
  else s

/-- `adjustSearch()`. -/
def adjustSearch (s : ResponsiveEcommerce) : ResponsiveEcommerce :=
  if s.isMobile then { s with searchInputWidth := "200px" }
  else if s.isTablet then { s with searchInputWidth := "250px" }
  else { s with searchInputWidth := "300px" }

/-- `adjustContent()`. -/
def adjustContent (s : ResponsiveEcommerce) (v : Viewport) : ResponsiveEcommerce :=
  let sidebarWidth : Nat := if s.isMobile then 0 else (if s.isTablet then 200 else 220)
  match s.contentArea with
  | none => s
  | some _ =>
    let style : ContentStyle :=
      { marginTop := toString v.navbarHeight ++ "px"
        marginLeft := if s.isMobile then "0" else toString sidebarWidth ++ "px"
        width := if s.isMobile then "100%"
                 else "calc(100% - " ++ toString sidebarWidth ++ "px)" }
    { s with contentArea := some style }

/-- `handleResize()`. -/
def handleResize (s : ResponsiveEcommerce) (v : Viewport) : ResponsiveEcommerce :=
  let width := v.innerWidth
  let s1 := { s with
    isMobile := decide (width ≤ 768)
    isTablet := decide (width > 768) && decide (width ≤ 1024)
    isDesktop := decide (width > 1024) }
  let s2 := { s1 with bodyClass := [] }
  let s3 :=
    if s2.isMobile then setupMobile { s2 with bodyClass := classAdd s2.bodyClass "mobile" }
    else if s2.isTablet then setupTablet { s2 with bodyClass := classAdd s2.bodyClass "tablet" }
    else setupDesktop { s2 with bodyClass := classAdd s2.bodyClass "desktop" }
  adjustContent (adjustSearch (adjustSidebar s3 v)) v

/-- `toggleSearch()`; a call of `searchInput.focus()` is counted. -/
def toggleSearch (s : ResponsiveEcommerce) : ResponsiveEcommerce :=
  let s1 := { s with
    searchContainerClass := classToggle s.searchContainerClass "mobile-search-active" }
  if "mobile-search-active" ∈ s1.searchContainerClass then
    { s1 with searchFocusRequests := s1.searchFocusRequests + 1 }
  else s1

/-- The `touchstart` listener; the argument lists the client coordinates of
`e.touches`, and the body runs when `e.touches.length === 1`. -/
def touchStart (s : ResponsiveEcommerce) (touches : List (Int × Int)) : ResponsiveEcommerce :=
  match touches with
  | [(x, y)] =>
    { s with gesture :=
        { s.gesture with startX := some x, startY := some y, isSwipeGesture := true } }
  | _ => s

/-- The `touchmove` listener. -/
def touchMove (s : ResponsiveEcommerce) (touches : List (Int × Int)) : ResponsiveEcommerce :=
  if !s.gesture.isSwipeGesture then s
  else
    match touches with
    | [(x, y)] => { s with gesture := { s.gesture with currentX := some x, currentY := some y } }
    | _ => s

end ResponsiveEcommerce

/-- Subtraction of numbers, `none` standing for `undefined` and `NaN`. -/
def jsSub (a b : Option Int) : Option Int :=
  match a, b with
  | some x, some y => some (x - y)
  | _, _ => none

/-- `Math.abs`. -/
def jsAbs (a : Option Int) : Option Int :=
  a.map (fun x => |x|)

/-- The comparison `a > b`, false as soon as one side is `NaN`. -/
def jsGt (a b : Option Int) : Bool :=
  match a, b with
  | some x, some y => decide (x > y)
  | _, _ => false

/-- The comparison `a < b`, false as soon as one side is `NaN`. -/
def jsLt (a b : Option Int) : Bool :=
  match a, b with
  | some x, some y => decide (x < y)
  | _, _ => false

/-- `String.prototype.length`: the number of UTF-16 code units. -/
def jsLength (q : String) : Nat :=
  (q.data.map (fun c => if c.val < 0x10000 then 1 else 2)).sum

/-- `String.prototype.includes`: the needle occurs as a contiguous run. -/
def jsIncludes (text needle : String) : Bool :=
  text.data.tails.any (fun t => needle.data.isPrefixOf t)

/-- Lower-casing of the letters `A` to `Z`, every other character kept. On a
string of ASCII characters this is the value of `String.prototype.toLowerCase`;
on other strings the built-in does more (it maps U+212A KELVIN SIGN to `k`,
for one), so this function is applied to ASCII strings only, to evaluate the
model on concrete queries, and every general statement takes the lower-casing
function as an argument. -/
def asciiLower (q : String) : String :=
  String.mk (q.data.map Char.toLower)

/-- The candidate list of `showSearchSuggestions`. -/
def mockCandidates : List String :=
  ["Groceries", "Cosmetics", "Snacks", "Beauty Care", "Special Deals"]

/-- One rendered suggestion. -/
def renderItem (item : String) : String :=
  "<div class=\"suggestion-item\">" ++ item ++ "</div>"

/-- The `map(...).join('')` of `showSearchSuggestions`. -/
def renderItems (items : List String) : String :=
  String.join (items.map renderItem)

namespace ResponsiveEcommerce

/-- The `touchend` listener. -/
def touchEnd (s : ResponsiveEcommerce) : ResponsiveEcommerce :=
  if !s.gesture.isSwipeGesture then s
  else
    let deltaX := jsSub s.gesture.currentX s.gesture.startX
    let deltaY := jsSub s.gesture.currentY s.gesture.startY
    let minSwipeDistance : Option Int := some 50
    let s1 :=
      if jsGt (jsAbs deltaX) (jsAbs deltaY) && jsGt (jsAbs deltaX) minSwipeDistance then
        if jsGt deltaX (some 0) && jsLt s.gesture.startX (some 50) && !s.sidebarOpen
            && s.isMobile then
          openSidebar s
        else if jsLt deltaX (some 0) && s.sidebarOpen then
          closeSidebar s
        else s
      else s
    { s1 with gesture := { s1.gesture with isSwipeGesture := false } }

/-- `handleKeyboard(e)` on a key event with `e.key = key` and `e.altKey = altKey`. -/
def handleKeyboard (s : ResponsiveEcommerce) (key : String) (altKey : Bool) :
    ResponsiveEcommerce :=
  let s1 := if key == "Escape" && s.sidebarOpen then closeSidebar s else s
  if altKey && key == "m" then toggleSidebar s1 else s1

/-- `handleSidebarClick(e)` where `e.target` is the link number `idx` of the
sidebar menu. -/
def handleSidebarClick (s : ResponsiveEcommerce) (idx : Nat) : ResponsiveEcommerce :=
  let s1 := { s with activeLinks := [idx] }
  if s1.isMobile then { s1 with timers := s1.timers ++ [(300, Callback.closeSidebar)] }
  else s1

/-- `showSearchSuggestions(query)`. -/
def showSearchSuggestions (toLowerCase : String → String) (s : ResponsiveEcommerce)
    (query : String) : ResponsiveEcommerce :=
  let suggestions : Suggestions :=
    match s.suggestions with
    | some el => el
    | none => { className := "search-suggestions", innerHTML := "", display := "" }
  let mockSuggestions :=
    mockCandidates.filter (fun item => jsIncludes (toLowerCase item) (toLowerCase query))
  let updated : Suggestions :=
    { suggestions with
      innerHTML := renderItems mockSuggestions
      display := if mockSuggestions.length != 0 then "block" else "none" }
  { s with suggestions := some updated }

/-- `handleSearch(query)`. -/
def handleSearch (toLowerCase : String → String) (s : ResponsiveEcommerce)
    (query : String) : ResponsiveEcommerce :=
  if s.isMobile && decide (jsLength query > 2) then showSearchSuggestions toLowerCase s query
  else s

/-- `handleScroll(lastScrollTop)` with `window.pageYOffset = currentScroll`. -/
def handleScroll (s : ResponsiveEcommerce) (currentScroll lastScrollTop : Int) :
    ResponsiveEcommerce :=
  if s.isMobile then
    if decide (currentScroll > lastScrollTop) && decide (currentScroll > 100) then
      { s with navbarClass := classAdd s.navbarClass "navbar-hidden" }
    else
      { s with navbarClass := classRemove s.navbarClass "navbar-hidden" }
  else s

/-- The constructor: `init()`, `bindEvents()` (which only registers the
listeners that `dispatch` models) and `handleResize()`. -/
def construct (p : Page) (v : Viewport) : ResponsiveEcommerce :=
  handleResize (init p v) v

/-- What a callback does to the controller when its timer expires. -/
def runCallback (s : ResponsiveEcommerce) (cb : Callback) (v : Viewport) :
    ResponsiveEcommerce :=
  match cb with
  | Callback.focusFirstLink => s
  | Callback.closeSidebar => closeSidebar s
  | Callback.handleResize => handleResize s v

end ResponsiveEcommerce

/-- Browser events the controller listens to. `resize` is the firing of the
debounced resize listener, `timer i` the expiry of the pending timeout number
`i`. -/
inductive Event where
  | resize (v : Viewport)
  | orientationchange
  | hamburgerClick
  | searchToggleClick
  | overlayClick
  | sidebarMenuClick (targetIsLink : Bool) (idx : Nat)
  | touchstart (touches : List (Int × Int))
  | touchmove (touches : List (Int × Int))
  | touchend
  | keydown (key : String) (altKey : Bool)
  | timer (i : Nat) (v : Viewport)
deriving DecidableEq, Repr

namespace ResponsiveEcommerce

/-- The listeners registered by `bindEvents()`. -/
def dispatch (s : ResponsiveEcommerce) (e : Event) : ResponsiveEcommerce :=
  match e with
  | Event.resize v => handleResize s v
  | Event.orientationchange => { s with timers := s.timers ++ [(100, Callback.handleResize)] }
  | Event.hamburgerClick => toggleSidebar s
  | Event.searchToggleClick => toggleSearch s
  | Event.overlayClick => closeSidebar s
  | Event.sidebarMenuClick targetIsLink idx =>
    if targetIsLink then handleSidebarClick s idx else s
  | Event.touchstart touches => if s.hasTouch then touchStart s touches else s
  | Event.touchmove touches => if s.hasTouch then touchMove s touches else s
  | Event.touchend => if s.hasTouch then touchEnd s else s
  | Event.keydown key altKey => handleKeyboard s key altKey
  | Event.timer i v =>
    match s.timers.get? i with
    | some (_, cb) => runCallback { s with timers := s.timers.eraseIdx i } cb v
    | none => s

/-- The controller after a sequence of events. -/
def run (s : ResponsiveEcommerce) (es : List Event) : ResponsiveEcommerce :=
  es.foldl dispatch s

end ResponsiveEcommerce

/-! ## The debounced resize listener -/

/-- A pending one-shot timer. -/
structure Timer where
  id : Nat
  due : Nat
deriving DecidableEq, Repr

/-- A resize event: when it arrives and the viewport it leaves behind. -/
structure ResizeEvent where
  time : Nat
  viewport : Viewport
deriving DecidableEq, Repr

/-- The page seen by the resize listener `debounce(() => this.handleResize(), 250)`:
a clock in milliseconds, the current viewport, the queue of pending timers, the
closure variable `timeout` of `debounce`, the controller, and a record of every
run of `handleResize` the listener caused (its time and the viewport it read). -/
structure World where
  now : Nat
  viewport : Viewport
  nextTimerId : Nat
  pending : List Timer
  timeout : Option Nat
  app : ResponsiveEcommerce
  runs : List (Nat × Viewport)
deriving DecidableEq, Repr

namespace World

/-- `setTimeout(later, wait)`: queues a timer and returns its id. -/
def setTimeout (w : World) (wait : Nat) : World × Nat :=
  ({ w with
      pending := w.pending ++ [{ id := w.nextTimerId, due := w.now + wait }]
      nextTimerId := w.nextTimerId + 1 },
   w.nextTimerId)

/-- `clearTimeout(id)`; `none` is `undefined`. -/
def clearTimeout (w : World) (id : Option Nat) : World :=
  match id with
  | none => w
  | some i => { w with pending := w.pending.filter (fun t => t.id != i) }

/-- The debounced function `() => this.handleResize()`. -/
def func (w : World) : World :=
  { w with
    app := ResponsiveEcommerce.handleResize w.app w.viewport
    runs := w.runs ++ [(w.now, w.viewport)] }

/-- The callback `later` of `debounce`. -/
def later (w : World) : World :=
  func (clearTimeout w w.timeout)

/-- The function `executedFunction` returned by `debounce(func, wait)`. -/
def executedFunction (wait : Nat) (w : World) : World :=
  let w1 := clearTimeout w w.timeout
  let r := setTimeout w1 wait
  { r.1 with timeout := some r.2 }

/-- The earliest pending timer that is due at time `t`, the older one among
timers due at the same time. -/
def nextDue (t : Nat) (pending : List Timer) : Option Timer :=
  pending.foldl
    (fun best x =>
      if x.due ≤ t then
        match best with
        | none => some x
        | some b => if x.due < b.due then some x else some b
      else best)
    none

/-- Runs the timers that are due up to time `t`, at most `fuel` of them, each
at its due time, and moves the clock to `t`. -/
def advanceAux : Nat → Nat → World → World
  | 0, t, w => { w with now := max w.now t }
  | fuel + 1, t, w =>
    match nextDue t w.pending with
    | none => { w with now := max w.now t }
    | some tm =>
      advanceAux fuel t
        (later { w with
          now := max w.now tm.due
          pending := w.pending.filter (fun x => x.id != tm.id) })

/-- Lets time pass until `t`. A timer callback queues no timer, so the
number of pending timers bounds the number of callbacks to run. -/
def advanceTo (t : Nat) (w : World) : World :=
  advanceAux w.pending.length t w

/-- A resize event: time passes until the event, the viewport changes, the
debounced listener is called. -/
def resizeAt (w : World) (e : ResizeEvent) : World :=
  let w1 := advanceTo e.time w
  executedFunction 250 { w1 with viewport := e.viewport }

/-- A sequence of resize events. -/
def resizeAll (w : World) (es : List ResizeEvent) : World :=
  es.foldl resizeAt w

end World

/-- A burst: each event arrives after the previous one and less than 250 ms
after it. -/
def isBurst : List ResizeEvent → Bool
  | a :: b :: rest =>
    decide (a.time ≤ b.time) && decide (b.time < a.time + 250) && isBurst (b :: rest)
  | _ => true

/-! ## State of `CategoryScroll` -/

/-- A scroll button: the two inline style properties and the `disabled` flag. -/
structure Button where
  opacity : String
  cursor : String
  disabled : Bool
deriving DecidableEq, Repr

/-- The tile container `.mainTile`. -/
structure Container where
  scrollLeft : Int
  scrollWidth : Int
  clientWidth : Int
deriving DecidableEq, Repr

/-- Where a listener is registered. -/
inductive Target where
  | scrollLeftBtn
  | scrollRightBtn
  | categoryContainer
  | window
deriving DecidableEq, Repr

/-- A call of `addEventListener`. -/
structure Listener where
  target : Target
  type : String
deriving DecidableEq, Repr

/-- What `querySelector` finds for `.mainTile`, `.scrollLeft`, `.scrollRight`. -/
structure Anchors where
  mainTile : Option Container
  scrollLeft : Option Button
  scrollRight : Option Button
deriving DecidableEq, Repr

/-- Fields of a `CategoryScroll` instance with the DOM state it owns, the
listeners it registered, the warnings it logged and the number of times
`updateScrollButtons` was entered. -/
structure CategoryScroll where
  categoryContainer : Option Container
  scrollLeftBtn : Option Button
  scrollRightBtn : Option Button
  scrollAmount : Int
  listeners : List Listener
  warnings : List String
  updateCalls : Nat
deriving DecidableEq, Repr

namespace CategoryScroll

/-- The style and flag `updateScrollButtons` gives a button. -/
def buttonState (atEdge : Bool) : Button :=
  { opacity := if atEdge then "0.4" else "1"
    cursor := if atEdge then "not-allowed" else "pointer"
    disabled := atEdge }

/-- `updateScrollButtons()`; `none` is the `TypeError` of reading `scrollLeft`
from a missing container. -/
def updateScrollButtons (cs : CategoryScroll) : Option CategoryScroll :=
  match cs.categoryContainer with
  | none => none
  | some container =>
    let isAtStart := decide (container.scrollLeft ≤ 0)
    let isAtEnd :=
      decide (container.scrollLeft ≥ container.scrollWidth - container.clientWidth - 1)
    some { cs with
      scrollLeftBtn := cs.scrollLeftBtn.map (fun _ => buttonState isAtStart)
      scrollRightBtn := cs.scrollRightBtn.map (fun _ => buttonState isAtEnd)
      updateCalls := cs.updateCalls + 1 }

/-- `init()`. -/
def init (a : Anchors) : Option CategoryScroll :=
  let cs : CategoryScroll :=
    { categoryContainer := a.mainTile
      scrollLeftBtn := a.scrollLeft
      scrollRightBtn := a.scrollRight
      scrollAmount := 200
      listeners := []
      warnings := []
      updateCalls := 0 }
  if cs.categoryContainer.isNone || cs.scrollLeftBtn.isNone || cs.scrollRightBtn.isNone then
    some { cs with warnings := cs.warnings ++ ["Category scroll elements not found"] }
  else updateScrollButtons cs

/-- `bindEvents()`. -/
def bindEvents (cs : CategoryScroll) : CategoryScroll :=
  if cs.categoryContainer.isNone then cs
  else
    let left : List Listener :=
      if cs.scrollLeftBtn.isSome then [{ target := Target.scrollLeftBtn, type := "click" }]
      else []
    let right : List Listener :=
      if cs.scrollRightBtn.isSome then [{ target := Target.scrollRightBtn, type := "click" }]
      else []
    { cs with listeners := cs.listeners ++ left ++ right ++
        [{ target := Target.categoryContainer, type := "scroll" },
         { target := Target.window, type := "resize" },
         { target := Target.categoryContainer, type := "wheel" }] }

/-- The constructor: `init()` then `bindEvents()`. -/
def construct (a : Anchors) : Option CategoryScroll :=
  (init a).map bindEvents

end CategoryScroll

/-- The three top-level layout classes. -/
def layoutClasses : List String := ["mobile", "tablet", "desktop"]

/-- A concrete page used to evaluate the model. -/
def samplePage : Page :=
  { bodyClass := []
    sidebarClass := ["the-sidebar"]
    navbarClass := ["navbar"]
    searchContainerClass := ["search-box"]
    contentArea := some { marginTop := "", marginLeft := "", width := "" }
    sidebarHasLink := true
    activeLinks := []
    suggestions := none
    hasTouch := true }

/-- A phone-sized viewport. -/
def phoneViewport : Viewport := { innerWidth := 400, innerHeight := 800, navbarHeight := 60 }

/-- A tablet-sized viewport. -/
def tabletViewport : Viewport := { innerWidth := 900, innerHeight := 700, navbarHeight := 60 }

/-- A desktop-sized viewport. -/
def desktopViewport : Viewport := { innerWidth := 1200, innerHeight := 800, navbarHeight := 60 }

/-- A button as the page delivers it. -/
def plainButton : Button := { opacity := "", cursor := "", disabled := false }

/-- A tile strip scrolled to offset 120 out of a maximal offset of 500. -/
def sampleContainer : Container := { scrollLeft := 120, scrollWidth := 1300, clientWidth := 800 }

/-- A page with the tile strip and the right button but no left button. -/
def anchorsNoLeft : Anchors :=
  { mainTile := some sampleContainer, scrollLeft := none, scrollRight := some plainButton }

/-- A page without the tile strip. -/
def anchorsNoContainer : Anchors :=
  { mainTile := none, scrollLeft := some plainButton, scrollRight := some plainButton }

/-- A widget with all three anchors. -/
def sampleScroll : CategoryScroll :=
  { categoryContainer := some sampleContainer
    scrollLeftBtn := some plainButton
    scrollRightBtn := some plainButton
    scrollAmount := 200
    listeners := []
    warnings := []
    updateCalls := 0 }

/-- The click and container listeners `bindEvents` registers when the tile
container exists. -/
def boundListeners (a : Anchors) : List Listener :=
  (if a.scrollLeft.isSome then [{ target := Target.scrollLeftBtn, type := "click" }] else []) ++
  (if a.scrollRight.isSome then [{ target := Target.scrollRightBtn, type := "click" }] else []) ++
  [{ target := Target.categoryContainer, type := "scroll" },
   { target := Target.window, type := "resize" },
   { target := Target.categoryContainer, type := "wheel" }]

/-- The page right after the controller was built on a desktop viewport at
time 0: no timer is pending. -/
def sampleWorld : World :=
  { now := 0
    viewport := desktopViewport
    nextTimerId := 0
    pending := []
    timeout := none
    app := ResponsiveEcommerce.construct samplePage desktopViewport
    runs := [] }

/-- Ten resize events within 250 ms, shrinking the window from 1150 to 700. -/
def tenResizes : List ResizeEvent :=
  (List.range 10).map (fun i =>
    { time := 1000 + 20 * i
      viewport := { innerWidth := 1150 - 50 * (i : Int), innerHeight := 800, navbarHeight := 60 } })

/-- The debounced listener is armed for the event `e`: the clock and the
viewport are those of `e`, the only pending timer is the one `timeout` names
and it is due 250 ms after `e`, and the record of runs and the controller are
`runs` and `app`. -/
def Armed (w : World) (e : ResizeEvent) (runs : List (Nat × Viewport))
    (app : ResponsiveEcommerce) : Prop :=
  ∃ id, w.pending = [{ id := id, due := e.time + 250 }] ∧ w.timeout = some id ∧
    w.now = e.time ∧ w.viewport = e.viewport ∧ w.runs = runs ∧ w.app = app

/-- The controller on a phone after one swipe from (150, 200) to (260, 210). -/
def afterSwipe : ResponsiveEcommerce :=
  ResponsiveEcommerce.run (ResponsiveEcommerce.construct samplePage phoneViewport)
    [Event.touchstart [(150, 200)], Event.touchmove [(260, 210)], Event.touchend]

/-- A sidebar that is closed: the flag is down and none of the four markers
that `openSidebar` sets is present. -/
def SidebarClosed (s : ResponsiveEcommerce) : Prop :=
  s.sidebarOpen = false ∧ "mobile-open" ∉ s.sidebarClass ∧ "active" ∉ s.overlayClass ∧
    "active" ∉ s.hamburgerClass ∧ "sidebar-open" ∉ s.bodyClass

instance (s : ResponsiveEcommerce) : Decidable (SidebarClosed s) := by
  unfold SidebarClosed; infer_instance

/-! ## Theorems -/

theorem classRemove_idem (cl : List String) (t : String) :
    classRemove (classRemove cl t) t = classRemove cl t := by
  simp [classRemove, List.filter_filter]

theorem classRemove_absent (cl : List String) (t : String) (h : t ∉ cl) :
    classRemove cl t = cl := by
  unfold classRemove
  rw [List.filter_eq_self]
  intro a ha
  simp only [bne_iff_ne, ne_eq]
  rintro rfl
  exact h ha

open ResponsiveEcommerce

/-- C1: after `handleResize` at any integer width `w` exactly one of the three
device flags is set (`isMobile` iff `w ≤ 768`, `isTablet` iff `769 ≤ w ≤ 1024`,
`isDesktop` iff `w > 1024`) and the body carries exactly the matching layout
class among `mobile`, `tablet`, `desktop`. -/
theorem handleResize_partition (s : ResponsiveEcommerce) (v : Viewport) :
    let r := handleResize s v
    (r.isMobile = true ↔ v.innerWidth ≤ 768) ∧
    (r.isTablet = true ↔ 769 ≤ v.innerWidth ∧ v.innerWidth ≤ 1024) ∧
    (r.isDesktop = true ↔ v.innerWidth > 1024) ∧
    ((r.isMobile = true ∧ r.isTablet = false ∧ r.isDesktop = false) ∨
     (r.isMobile = false ∧ r.isTablet = true ∧ r.isDesktop = false) ∨
     (r.isMobile = false ∧ r.isTablet = false ∧ r.isDesktop = true)) ∧
    (r.isMobile = true → r.bodyClass = ["mobile"]) ∧
    (r.isTablet = true → r.bodyClass = ["tablet"]) ∧
    (r.isDesktop = true → r.bodyClass = ["desktop"]) ∧
    (∀ c ∈ layoutClasses, c ∈ r.bodyClass ↔
      (c = "mobile" ∧ r.isMobile = true) ∨ (c = "tablet" ∧ r.isTablet = true) ∨
      (c = "desktop" ∧ r.isDesktop = true)) := by
  intro r
  have key : (r.isMobile = decide (v.innerWidth ≤ 768)) ∧
      (r.isTablet = (decide (v.innerWidth > 768) && decide (v.innerWidth ≤ 1024))) ∧
      (r.isDesktop = decide (v.innerWidth > 1024)) ∧
      (r.bodyClass = if v.innerWidth ≤ 768 then ["mobile"]
        else if v.innerWidth ≤ 1024 then ["tablet"] else ["desktop"]) := by
    rcases le_or_lt v.innerWidth 768 with h1 | h1
    · have h2 : ¬ (768 < v.innerWidth) := not_lt.mpr h1
      have h3 : ¬ (1024 < v.innerWidth) := by omega
      cases ho : s.sidebarOpen <;> cases hc : s.contentArea <;>
        simp [r, handleResize, setupMobile, closeSidebar, adjustSidebar, adjustSearch,
          adjustContent, classAdd, classRemove, h1, h2, h3, ho, hc]
    · rcases le_or_lt v.innerWidth 1024 with h2 | h2
      · have h3 : ¬ (v.innerWidth ≤ 768) := not_le.mpr h1
        have h4 : ¬ (1024 < v.innerWidth) := not_lt.mpr h2
        cases hc : s.contentArea <;>
          simp [r, handleResize, setupTablet, adjustSidebar, adjustSearch,
            adjustContent, classAdd, h1, h2, h3, h4, hc]
      · have h3 : ¬ (v.innerWidth ≤ 768) := by omega
        have h4 : ¬ (v.innerWidth ≤ 1024) := not_le.mpr h2
        have h5 : 768 < v.innerWidth := by omega
        cases hc : s.contentArea <;>
          simp [r, handleResize, setupDesktop, adjustSidebar, adjustSearch,
            adjustContent, classAdd, h2, h3, h4, h5, hc]
  obtain ⟨km, kt, kd, kb⟩ := key
  rw [km, kt, kd, kb]
  rcases le_or_lt v.innerWidth 768 with h1 | h1
  · have h2 : ¬ (768 < v.innerWidth) := not_lt.mpr h1
    have h3 : ¬ (1024 < v.innerWidth) := by omega
    have h4 : ¬ (769 ≤ v.innerWidth) := by omega
    simp [layoutClasses, h1, h2, h3, h4]
  · rcases le_or_lt v.innerWidth 1024 with h2 | h2
    · have h3 : ¬ (v.innerWidth ≤ 768) := not_le.mpr h1
      have h4 : ¬ (1024 < v.innerWidth) := not_lt.mpr h2
      have h5 : 769 ≤ v.innerWidth := by omega
      simp [layoutClasses, h1, h2, h3, h4, h5]
    · have h3 : ¬ (v.innerWidth ≤ 768) := by omega
      have h4 : ¬ (v.innerWidth ≤ 1024) := not_le.mpr h2
      have h5 : 768 < v.innerWidth := by omega
      simp [layoutClasses, h2, h3, h4, h5]

/-- C3: `closeSidebar` is idempotent: closing twice gives the state that
closing once gives (flag and the class lists of sidebar, overlay, hamburger
and body, and everything else), and closing a closed sidebar changes nothing. -/
theorem closeSidebar_idempotent (s : ResponsiveEcommerce) :
    closeSidebar (closeSidebar s) = closeSidebar s ∧
    (SidebarClosed s → closeSidebar s = s) := by
  constructor
  · simp [closeSidebar, classRemove_idem]
  · rintro ⟨h0, h1, h2, h3, h4⟩
    cases s
    simp only [closeSidebar] at *
    simp [classRemove_absent _ _ h1, classRemove_absent _ _ h2, classRemove_absent _ _ h3,
      classRemove_absent _ _ h4, h0]

theorem closeSidebar_idempotent_witness :
    SidebarClosed (construct samplePage phoneViewport) ∧
    closeSidebar (construct samplePage phoneViewport) = construct samplePage phoneViewport :=
  ⟨by decide, (closeSidebar_idempotent (construct samplePage phoneViewport)).2 (by decide)⟩

open CategoryScroll in
/-- C4: with the tile container at offset `s`, `0 ≤ s ≤ maxOffset` and
`maxOffset = scrollWidth - clientWidth`, `updateScrollButtons` returns, leaves
the left button enabled iff `s > 0` and the right button enabled iff
`s < maxOffset - 1`, and gives each button the `disabled` flag together with
the opacity `0.4`. -/
theorem updateScrollButtons_edges (cs : CategoryScroll) (c : Container)
    (hc : cs.categoryContainer = some c)
    (_h0 : 0 ≤ c.scrollLeft) (_h1 : c.scrollLeft ≤ c.scrollWidth - c.clientWidth) :
    ∃ r, updateScrollButtons cs = some r ∧
      (∀ b, cs.scrollLeftBtn = some b → ∃ b1, r.scrollLeftBtn = some b1 ∧
        (b1.disabled = false ↔ c.scrollLeft > 0) ∧
        (b1.disabled = true ↔ b1.opacity = "0.4")) ∧
      (∀ b, cs.scrollRightBtn = some b → ∃ b1, r.scrollRightBtn = some b1 ∧
        (b1.disabled = false ↔ c.scrollLeft < (c.scrollWidth - c.clientWidth) - 1) ∧
        (b1.disabled = true ↔ b1.opacity = "0.4")) := by
  refine ⟨_, by simp only [updateScrollButtons, hc]; rfl, ?_, ?_⟩
  · intro b hb
    refine ⟨_, by simp only [hb, Option.map_some]; rfl, ?_, ?_⟩
    · simp [buttonState]
    · by_cases h : c.scrollLeft ≤ 0 <;> simp [buttonState, h]
  · intro b hb
    refine ⟨_, by simp only [hb, Option.map_some]; rfl, ?_, ?_⟩
    · simp only [buttonState, decide_eq_false_iff_not, ge_iff_le, not_le]
    · by_cases h : c.scrollLeft ≥ c.scrollWidth - c.clientWidth - 1 <;> simp [buttonState, h]

theorem updateScrollButtons_edges_witness :
    ∃ r, CategoryScroll.updateScrollButtons sampleScroll = some r ∧
      (∀ b, sampleScroll.scrollLeftBtn = some b → ∃ b1, r.scrollLeftBtn = some b1 ∧
        (b1.disabled = false ↔ sampleContainer.scrollLeft > 0) ∧
        (b1.disabled = true ↔ b1.opacity = "0.4")) ∧
      (∀ b, sampleScroll.scrollRightBtn = some b → ∃ b1, r.scrollRightBtn = some b1 ∧
        (b1.disabled = false ↔
          sampleContainer.scrollLeft < (sampleContainer.scrollWidth - sampleContainer.clientWidth) - 1) ∧
        (b1.disabled = true ↔ b1.opacity = "0.4")) :=
  updateScrollButtons_edges sampleScroll sampleContainer rfl (by decide) (by decide)

/-- C8, as stated, fails: with the tile container and the right button present
and the left button absent, the constructor registers four listeners. -/
theorem construct_missing_button_binds :
    anchorsNoLeft.scrollLeft = none ∧
    ∃ cs, CategoryScroll.construct anchorsNoLeft = some cs ∧
      cs.listeners =
        [{ target := Target.scrollRightBtn, type := "click" },
         { target := Target.categoryContainer, type := "scroll" },
         { target := Target.window, type := "resize" },
         { target := Target.categoryContainer, type := "wheel" }] :=
  ⟨rfl, _, rfl, rfl⟩

/-- C8, amended: when at least one of the three anchors is absent the
constructor returns, logs the warning and does not enter
`updateScrollButtons`; it registers no listener when the tile container is
absent, and when the container is present it registers the click listener of
each button that exists and the scroll, resize and wheel listeners. -/
theorem construct_missing_anchor (a : Anchors)
    (h : a.mainTile = none ∨ a.scrollLeft = none ∨ a.scrollRight = none) :
    ∃ cs, CategoryScroll.construct a = some cs ∧
      cs.updateCalls = 0 ∧
      cs.warnings = ["Category scroll elements not found"] ∧
      (a.mainTile = none → cs.listeners = []) ∧
      (a.mainTile ≠ none → cs.listeners = boundListeners a) := by
  obtain ⟨m, l, r⟩ := a
  rcases m with _ | m <;> rcases l with _ | l <;> rcases r with _ | r <;>
    simp [CategoryScroll.construct, CategoryScroll.init, CategoryScroll.bindEvents,
      boundListeners] at h ⊢

theorem construct_missing_anchor_witness :
    ∃ cs, CategoryScroll.construct anchorsNoContainer = some cs ∧
      cs.updateCalls = 0 ∧
      cs.warnings = ["Category scroll elements not found"] ∧
      (anchorsNoContainer.mainTile = none → cs.listeners = []) ∧
      (anchorsNoContainer.mainTile ≠ none → cs.listeners = boundListeners anchorsNoContainer) :=
  construct_missing_anchor anchorsNoContainer (Or.inl rfl)

/-- C2: evaluation at the failing input. On a desktop viewport (width 1200),
where `setupDesktop` has lowered `sidebarOpen` and hidden the hamburger, the
key event Alt+M runs `toggleSidebar`, so the controller reaches a state with
`isDesktop` and `sidebarOpen` both true. -/
theorem altM_opens_sidebar_on_desktop :
    (construct samplePage desktopViewport).isDesktop = true ∧
    (construct samplePage desktopViewport).sidebarOpen = false ∧
    (construct samplePage desktopViewport).hamburgerDisplay = "none" ∧
    (run (construct samplePage desktopViewport) [Event.keydown "m" true]).isDesktop = true ∧
    (run (construct samplePage desktopViewport) [Event.keydown "m" true]).sidebarOpen = true := by
  decide

/-- C9: evaluation at the failing input. A `touchend` lowers the tracking flag
and keeps the recorded coordinates; after a swipe that ended at x = 300, a
later touch at (10, 100) released without any move is classified with the old
end point and opens the sidebar. -/
theorem tap_after_swipe_opens_sidebar :
    (run (construct samplePage phoneViewport)
      [Event.touchstart [(200, 100)], Event.touchmove [(300, 100)], Event.touchend]).sidebarOpen
      = false ∧
    (run (construct samplePage phoneViewport)
      [Event.touchstart [(200, 100)], Event.touchmove [(300, 100)], Event.touchend]).gesture
      = { startX := some 200, startY := some 100, currentX := some 300, currentY := some 100,
          isSwipeGesture := false } ∧
    (run (construct samplePage phoneViewport)
      [Event.touchstart [(200, 100)], Event.touchmove [(300, 100)], Event.touchend,
       Event.touchstart [(10, 100)], Event.touchend]).sidebarOpen = true := by
  decide

/-- C10: evaluation at the failing input. The sidebar is opened on a tablet
viewport and the window is then resized to a desktop width: `setupDesktop`
lowers `sidebarOpen` and leaves `mobile-open` on the sidebar and `active` on
the hamburger. -/
theorem resize_to_desktop_keeps_open_classes :
    (handleResize (toggleSidebar (construct samplePage tabletViewport)) desktopViewport).sidebarOpen
      = false ∧
    "mobile-open" ∈
      (handleResize (toggleSidebar (construct samplePage tabletViewport)) desktopViewport).sidebarClass ∧
    "active" ∈
      (handleResize (toggleSidebar (construct samplePage tabletViewport)) desktopViewport).hamburgerClass := by
  decide

theorem touchMove_shape (s : ResponsiveEcommerce) (touches : List (Int × Int)) :
    ∃ cx cy, touchMove s touches =
      { s with gesture := { s.gesture with currentX := cx, currentY := cy } } := by
  unfold touchMove
  split
  · exact ⟨s.gesture.currentX, s.gesture.currentY, rfl⟩
  · split
    · exact ⟨_, _, rfl⟩
    · exact ⟨s.gesture.currentX, s.gesture.currentY, rfl⟩

theorem touchMoves_shape (moves : List (List (Int × Int))) (s : ResponsiveEcommerce) :
    ∃ cx cy, moves.foldl touchMove s =
      { s with gesture := { s.gesture with currentX := cx, currentY := cy } } := by
  induction moves generalizing s with
  | nil => exact ⟨s.gesture.currentX, s.gesture.currentY, rfl⟩
  | cons m ms ih =>
    obtain ⟨cx, cy, h⟩ := touchMove_shape s m
    obtain ⟨cx1, cy1, h1⟩ := ih (touchMove s m)
    refine ⟨cx1, cy1, ?_⟩
    rw [List.foldl_cons, h1, h]

theorem tracked_gesture_shape (s : ResponsiveEcommerce) (x0 y0 x1 y1 : Int)
    (moves : List (List (Int × Int))) :
    touchMove (moves.foldl touchMove (touchStart s [(x0, y0)])) [(x1, y1)] =
      { s with gesture :=
          { startX := some x0, startY := some y0, currentX := some x1, currentY := some y1,
            isSwipeGesture := true } } := by
  obtain ⟨cx, cy, h⟩ := touchMoves_shape moves (touchStart s [(x0, y0)])
  rw [h]
  simp [touchMove, touchStart]

theorem touchEnd_tracked (s : ResponsiveEcommerce) (x0 y0 x1 y1 : Int) :
    touchEnd { s with gesture :=
        { startX := some x0, startY := some y0, currentX := some x1, currentY := some y1,
          isSwipeGesture := true } } =
      if |x1 - x0| > |y1 - y0| ∧ |x1 - x0| > 50 then
        if x1 - x0 > 0 ∧ x0 < 50 ∧ s.sidebarOpen = false ∧ s.isMobile = true then
          { openSidebar s with gesture :=
              { startX := some x0, startY := some y0, currentX := some x1,
                currentY := some y1, isSwipeGesture := false } }
        else if x1 - x0 < 0 ∧ s.sidebarOpen = true then
          { closeSidebar s with gesture :=
              { startX := some x0, startY := some y0, currentX := some x1,
                currentY := some y1, isSwipeGesture := false } }
        else
          { s with gesture :=
              { startX := some x0, startY := some y0, currentX := some x1,
                currentY := some y1, isSwipeGesture := false } }
      else
        { s with gesture :=
            { startX := some x0, startY := some y0, currentX := some x1,
              currentY := some y1, isSwipeGesture := false } } := by
  simp only [touchEnd, jsSub, jsAbs, jsGt, jsLt, Option.map_some', Bool.not_true,
    Bool.false_eq_true, if_false, Bool.and_eq_true, decide_eq_true_eq, Bool.not_eq_true']
  by_cases h1 : |x1 - x0| > |y1 - y0| ∧ |x1 - x0| > 50
  · rw [if_pos h1, if_pos h1]
    by_cases h2 : x1 - x0 > 0 ∧ x0 < 50 ∧ s.sidebarOpen = false ∧ s.isMobile = true
    · rw [if_pos h2, if_pos (by tauto)]
      rfl
    · rw [if_neg h2, if_neg (by tauto)]
      by_cases h3 : x1 - x0 < 0 ∧ s.sidebarOpen = true
      · rw [if_pos h3, if_pos h3]
        rfl
      · rw [if_neg h3, if_neg h3]
  · rw [if_neg h1, if_neg h1]

/-- A gesture that has a last `touchmove`: after a one-finger `touchstart` at
`(x0, y0)`, any `touchmove` events and a last one-finger `touchmove` at
`(x1, y1)`, the `touchend` listener does exactly `openSidebar` if
`|dx| > |dy|`, `|dx| > 50`, `dx > 0`, `x0 < 50`, the device is Mobile and the
sidebar is closed; exactly `closeSidebar` if `|dx| > |dy|`, `|dx| > 50`,
`dx < 0` and the sidebar is open; and otherwise changes nothing but the
gesture record. In each case the gesture record keeps the four coordinates
and has the tracking flag lowered. -/
theorem touchEnd_after_move (s : ResponsiveEcommerce) (x0 y0 x1 y1 : Int)
    (moves : List (List (Int × Int))) :
    let r := touchEnd (touchMove (moves.foldl touchMove (touchStart s [(x0, y0)])) [(x1, y1)])
    let dx := x1 - x0
    let dy := y1 - y0
    let released : Gesture :=
      { startX := some x0, startY := some y0, currentX := some x1, currentY := some y1,
        isSwipeGesture := false }
    (|dx| > |dy| ∧ |dx| > 50 ∧ dx > 0 ∧ x0 < 50 ∧ s.isMobile = true ∧ s.sidebarOpen = false →
      r = { openSidebar s with gesture := released }) ∧
    (|dx| > |dy| ∧ |dx| > 50 ∧ dx < 0 ∧ s.sidebarOpen = true →
      r = { closeSidebar s with gesture := released }) ∧
    (¬ (|dx| > |dy| ∧ |dx| > 50 ∧ dx > 0 ∧ x0 < 50 ∧ s.isMobile = true ∧ s.sidebarOpen = false) →
      ¬ (|dx| > |dy| ∧ |dx| > 50 ∧ dx < 0 ∧ s.sidebarOpen = true) →
      r = { s with gesture := released }) := by
  intro r dx dy released
  have hr := touchEnd_tracked s x0 y0 x1 y1
  rw [← tracked_gesture_shape s x0 y0 x1 y1 moves] at hr
  change r = _ at hr
  unfold dx dy released
  refine ⟨?_, ?_, ?_⟩
  · rintro ⟨a, b, c, d, e, f⟩
    rw [hr, if_pos ⟨a, b⟩, if_pos ⟨c, d, f, e⟩]
  · rintro ⟨a, b, c, d⟩
    rw [hr, if_pos ⟨a, b⟩, if_neg (by rintro ⟨c1, -⟩; omega), if_pos ⟨c, d⟩]
  · intro n1 n2
    rw [hr]
    split_ifs with a b c
    · exact absurd ⟨a.1, a.2, b.1, b.2.1, b.2.2.2, b.2.2.1⟩ n1
    · exact absurd ⟨a.1, a.2, c.1, c.2⟩ n2
    · rfl
    · rfl

theorem touchEnd_after_move_examples :
    (touchEnd (touchMove (touchStart (construct samplePage phoneViewport) [(20, 300)])
      [(100, 310)])).sidebarOpen = true ∧
    (touchEnd (touchMove (touchStart (openSidebar (construct samplePage phoneViewport))
      [(200, 300)]) [(120, 305)])).sidebarOpen = false ∧
    (touchEnd (touchMove (touchStart (construct samplePage phoneViewport) [(20, 300)])
      [(40, 305)])).sidebarOpen = false :=
  ⟨congrArg ResponsiveEcommerce.sidebarOpen
     ((touchEnd_after_move (construct samplePage phoneViewport) 20 300 100 310 []).1 (by decide)),
   congrArg ResponsiveEcommerce.sidebarOpen
     ((touchEnd_after_move (openSidebar (construct samplePage phoneViewport))
       200 300 120 305 []).2.1 (by decide)),
   congrArg ResponsiveEcommerce.sidebarOpen
     ((touchEnd_after_move (construct samplePage phoneViewport) 20 300 40 305 []).2.2
       (by decide) (by decide))⟩

/-- C5: evaluation at the failing input. On Mobile with the sidebar closed, an
earlier swipe from (150, 200) to (260, 210) leaves the sidebar closed. A later
one-finger touch that starts at (30, 400) and is released without any
`touchmove` has start point and last point (30, 400), so `dx = dy = 0` and the
classification of the claim leaves `sidebarOpen` unchanged; the `touchend`
listener computes `deltaX = 260 - 30` and `deltaY = 210 - 400` from the end
point of the earlier swipe and runs `openSidebar`. -/
theorem touch_without_move_is_classified_with_old_end_point :
    afterSwipe.isMobile = true ∧ afterSwipe.sidebarOpen = false ∧
    afterSwipe.gesture =
      { startX := some 150, startY := some 200, currentX := some 260, currentY := some 210,
        isSwipeGesture := false } ∧
    run afterSwipe [Event.touchstart [(30, 400)], Event.touchend] =
      { openSidebar afterSwipe with gesture :=
          { startX := some 30, startY := some 400, currentX := some 260, currentY := some 210,
            isSwipeGesture := false } } ∧
    (run afterSwipe [Event.touchstart [(30, 400)], Event.touchend]).sidebarOpen = true ∧
    "mobile-open" ∈ (run afterSwipe [Event.touchstart [(30, 400)], Event.touchend]).sidebarClass := by
  decide

theorem jsIncludes_iff (text needle : String) :
    jsIncludes text needle = true ↔ needle.data <:+: text.data := by
  unfold jsIncludes
  rw [List.any_eq_true]
  constructor
  · rintro ⟨t, ht, hp⟩
    rw [List.mem_tails] at ht
    rw [List.isPrefixOf_iff_prefix] at hp
    exact List.infix_iff_prefix_suffix.mpr ⟨t, hp, ht⟩
  · intro h
    obtain ⟨t, hp, ht⟩ := List.infix_iff_prefix_suffix.mp h
    exact ⟨t, (List.mem_tails _ _).mpr ht, List.isPrefixOf_iff_prefix.mpr hp⟩

/-- C6: `handleSearch(q)` changes nothing unless the device is Mobile and `q`
is longer than 2 UTF-16 code units (so on a device that is not Mobile it
neither creates nor shows a suggestion list, for any `q`). When the device is
Mobile and `q` is longer than 2, the only change is the suggestion element: it
is the existing element or a new one of class `search-suggestions`, its
content is one `<div class="suggestion-item">` per candidate among Groceries,
Cosmetics, Snacks, Beauty Care, Special Deals, in that order, whose
lower-cased text has the lower-cased `q` as a contiguous part, and it is
displayed (`block`) when there is such a candidate and hidden (`none`) when
there is none. -/
theorem handleSearch_suggestions (toLowerCase : String → String) (s : ResponsiveEcommerce)
    (q : String) :
    let r := handleSearch toLowerCase s q
    let length := (q.data.map (fun c : Char => if c.val < 65536 then 1 else 2)).sum
    let found :=
      (["Groceries", "Cosmetics", "Snacks", "Beauty Care", "Special Deals"] : List String).filter
        (fun item => decide ((toLowerCase q).data <:+: (toLowerCase item).data))
    let shown : Suggestions :=
      { className :=
          match s.suggestions with
          | some el => el.className
          | none => "search-suggestions"
        innerHTML :=
          String.join
            (found.map (fun item => "<div class=\"suggestion-item\">" ++ item ++ "</div>"))
        display := if found = [] then "none" else "block" }
    (¬ (s.isMobile = true ∧ length > 2) → r = s) ∧
    (s.isMobile = true ∧ length > 2 → r = { s with suggestions := some shown }) ∧
    (s.isMobile = false → r = s) := by
  intro r length found shown
  have hlen : jsLength q = length := rfl
  have hfound : mockCandidates.filter
      (fun item => jsIncludes (toLowerCase item) (toLowerCase q)) = found := by
    unfold found mockCandidates
    apply List.filter_congr
    intro item _
    rw [Bool.eq_iff_iff, jsIncludes_iff, decide_eq_true_iff]
  refine ⟨?_, ?_, ?_⟩
  · intro h
    rw [← hlen] at h
    simp only [r, handleSearch, Bool.and_eq_true, decide_eq_true_eq, if_neg h]
  · intro h
    rw [← hlen] at h
    simp only [r, handleSearch, Bool.and_eq_true, decide_eq_true_eq, if_pos h,
      showSearchSuggestions, hfound, renderItems]
    have hd : (if (found.length != 0) = true then "block" else "none") =
        (if found = [] then "none" else "block") := by
      cases found <;> simp
    have hr : renderItem = fun item => "<div class=\"suggestion-item\">" ++ item ++ "</div>" :=
      rfl
    rw [hd, hr]
    unfold shown
    cases s.suggestions <;> rfl
  · intro h
    simp [r, handleSearch, h]

theorem handleSearch_suggestions_witness :
    handleSearch asciiLower (construct samplePage phoneViewport) "cos" =
      { construct samplePage phoneViewport with
        suggestions := some
          { className := "search-suggestions"
            innerHTML := "<div class=\"suggestion-item\">Cosmetics</div>"
            display := "block" } } ∧
    handleSearch asciiLower (construct samplePage phoneViewport) "BEA" =
      { construct samplePage phoneViewport with
        suggestions := some
          { className := "search-suggestions"
            innerHTML := "<div class=\"suggestion-item\">Beauty Care</div>"
            display := "block" } } ∧
    handleSearch asciiLower (construct samplePage phoneViewport) "ce" =
      construct samplePage phoneViewport ∧
    handleSearch asciiLower (construct samplePage desktopViewport) "cos" =
      construct samplePage desktopViewport :=
  ⟨((handleSearch_suggestions asciiLower (construct samplePage phoneViewport) "cos").2.1
      ⟨by decide, by decide⟩).trans (by decide),
   ((handleSearch_suggestions asciiLower (construct samplePage phoneViewport) "BEA").2.1
      ⟨by decide, by decide⟩).trans (by decide),
   (handleSearch_suggestions asciiLower (construct samplePage phoneViewport) "ce").1 (by decide),
   (handleSearch_suggestions asciiLower (construct samplePage desktopViewport) "cos").2.2
     (by decide)⟩

namespace World

theorem advanceTo_quiet (w : World) (t : Nat) (h : w.pending = []) :
    advanceTo t w = { w with now := max w.now t } := by
  simp [advanceTo, advanceAux, h]

theorem advanceTo_not_due (w : World) (t : Nat) (tm : Timer) (h : w.pending = [tm])
    (ht : t < tm.due) : advanceTo t w = { w with now := max w.now t } := by
  have hn : ¬ tm.due ≤ t := Nat.not_le.mpr ht
  simp [advanceTo, advanceAux, nextDue, h, hn]

theorem advanceTo_due (w : World) (t : Nat) (tm : Timer) (h : w.pending = [tm])
    (ht : tm.due ≤ t) (hnow : w.now ≤ tm.due) :
    advanceTo t w =
      { w with
        now := t
        pending := []
        app := ResponsiveEcommerce.handleResize w.app w.viewport
        runs := w.runs ++ [(tm.due, w.viewport)] } := by
  have h1 : max w.now tm.due = tm.due := max_eq_right hnow
  have h2 : max tm.due t = t := max_eq_right ht
  cases ho : w.timeout <;>
    simp [advanceTo, advanceAux, nextDue, later, func, clearTimeout, h, ht, h1, h2, ho]

theorem executedFunction_quiet (w : World) (wait : Nat) (h : w.pending = []) :
    executedFunction wait w =
      { w with
        pending := [{ id := w.nextTimerId, due := w.now + wait }]
        nextTimerId := w.nextTimerId + 1
        timeout := some w.nextTimerId } := by
  cases ho : w.timeout <;> simp [executedFunction, clearTimeout, setTimeout, h, ho]

theorem executedFunction_armed (w : World) (wait : Nat) (tm : Timer) (h : w.pending = [tm])
    (ho : w.timeout = some tm.id) :
    executedFunction wait w =
      { w with
        pending := [{ id := w.nextTimerId, due := w.now + wait }]
        nextTimerId := w.nextTimerId + 1
        timeout := some w.nextTimerId } := by
  simp [executedFunction, clearTimeout, setTimeout, h, ho]

theorem resizeAt_quiet (w : World) (e : ResizeEvent) (h : w.pending = [])
    (hnow : w.now ≤ e.time) : Armed (resizeAt w e) e w.runs w.app := by
  have h1 : max w.now e.time = e.time := max_eq_right hnow
  unfold resizeAt
  rw [advanceTo_quiet w e.time h]
  dsimp only
  rw [executedFunction_quiet]
  · exact ⟨w.nextTimerId, by simp [h1], rfl, by simp [h1], rfl, rfl, rfl⟩
  · exact h

theorem resizeAt_armed (w : World) (e e1 : ResizeEvent) (runs : List (Nat × Viewport))
    (app : ResponsiveEcommerce) (h : Armed w e runs app)
    (hle : e.time ≤ e1.time) (hlt : e1.time < e.time + 250) :
    Armed (resizeAt w e1) e1 runs app := by
  obtain ⟨id, hp, ho, hn, -, hr, ha⟩ := h
  have h1 : max w.now e1.time = e1.time := max_eq_right (by omega)
  unfold resizeAt
  rw [advanceTo_not_due w e1.time _ hp hlt]
  dsimp only
  rw [executedFunction_armed _ _ { id := id, due := e.time + 250 }]
  · exact ⟨w.nextTimerId, by simp [h1], rfl, by simp [h1], rfl, hr, ha⟩
  · exact hp
  · exact ho

theorem resizeAll_armed (rest : List ResizeEvent) (w : World) (e : ResizeEvent)
    (runs : List (Nat × Viewport)) (app : ResponsiveEcommerce) (h : Armed w e runs app)
    (hb : isBurst (e :: rest) = true) :
    Armed (resizeAll w rest) ((e :: rest).getLast (List.cons_ne_nil e rest)) runs app := by
  induction rest generalizing w e with
  | nil => simpa [resizeAll] using h
  | cons e1 rest ih =>
    have hb1 : (e.time ≤ e1.time ∧ e1.time < e.time + 250) ∧ isBurst (e1 :: rest) = true := by
      simpa [isBurst] using hb
    have hstep := resizeAt_armed w e e1 runs app h hb1.1.1 hb1.1.2
    have := ih (resizeAt w e1) e1 hstep hb1.2
    simpa [resizeAll, List.getLast_cons] using this

end World

/-- C7: for a burst of `n ≥ 1` resize events (`first :: rest`), each less than
250 ms after the previous one, that reaches a page with no pending timer, the
debounced resize listener runs `handleResize` exactly once: nothing runs
during the burst, and once 250 ms have passed since the last event there is
exactly one new run, at the time of the last event plus 250 ms, on the
viewport that the last event left. -/
theorem debounce_burst_runs_once (w0 : World) (first : ResizeEvent) (rest : List ResizeEvent)
    (t : Nat) (hquiet : w0.pending = []) (hstart : w0.now ≤ first.time)
    (hburst : isBurst (first :: rest) = true)
    (ht : ((first :: rest).getLast (List.cons_ne_nil first rest)).time + 250 ≤ t) :
    let last := (first :: rest).getLast (List.cons_ne_nil first rest)
    let during := World.resizeAll w0 (first :: rest)
    let after := World.advanceTo t during
    during.runs = w0.runs ∧ during.app = w0.app ∧
    (∀ u, u < last.time + 250 → (World.advanceTo u during).runs = w0.runs) ∧
    after.runs = w0.runs ++ [(last.time + 250, last.viewport)] ∧
    after.app = handleResize w0.app last.viewport ∧
    after.pending = [] := by
  intro last during after
  have h0 := World.resizeAt_quiet w0 first hquiet hstart
  have h1 : Armed during last w0.runs w0.app :=
    World.resizeAll_armed rest (World.resizeAt w0 first) first w0.runs w0.app h0 hburst
  obtain ⟨id, hp, ho, hn, hv, hr, ha⟩ := h1
  have hafter : after = _ :=
    World.advanceTo_due during t _ hp ht (by simp [hn])
  refine ⟨hr, ha, ?_, ?_, ?_, ?_⟩
  · intro u hu
    rw [World.advanceTo_not_due during u _ hp hu]
    exact hr
  · rw [hafter]; simp [hr, hv]
  · rw [hafter]; simp [ha, hv]
  · rw [hafter]

theorem debounce_burst_runs_once_witness :
    (World.advanceTo 1500 (World.resizeAll sampleWorld tenResizes)).runs =
      [(1430, { innerWidth := 700, innerHeight := 800, navbarHeight := 60 })] ∧
    (World.advanceTo 1500 (World.resizeAll sampleWorld tenResizes)).app =
      handleResize sampleWorld.app { innerWidth := 700, innerHeight := 800, navbarHeight := 60 } :=
  have h := debounce_burst_runs_once sampleWorld
    { time := 1000, viewport := { innerWidth := 1150, innerHeight := 800, navbarHeight := 60 } }
    (tenResizes.tail) 1500 rfl (by decide) (by decide) (by decide)
  ⟨h.2.2.2.1, h.2.2.2.2.1⟩

end Storefront
